import Mathlib

/-!
Shallow embedding of `src/main.py` (the SmartLead lead-cleanup pipeline).

The program polls a vendor REST API, expands completed campaigns into lead
tasks through two bounded queues, and deletes leads that never replied and
whose last message is older than seven days.  HTTP traffic is abstracted by
oracles: each fetch is modelled as an `Option` of its parsed payload, `none`
standing for any transport, HTTP-status or parse failure (the source turns
all of those into an empty default).  Timestamps are modelled as integer
epoch seconds; `datetime.strptime` on a well-formed `time` string yields the
corresponding instant, and `timedelta(days=7)` is `sevenDays` seconds.
Queue `put` traffic is modelled as the ordered list of items pushed, with
`Option.none` playing the role of the Python `None` sentinel.
-/

namespace SmartLead

/-- HTTP verb actually issued by `SmartLead.request` (main.py lines 26-36). -/
inductive HttpVerb
  | get
  | delete
deriving DecidableEq, Repr

/-- One outgoing HTTP call: the verb chosen by `request` and the target URL. -/
structure HttpCall where
  verb : HttpVerb
  url : String
deriving DecidableEq, Repr

/-- Campaign object as parsed from the `/campaigns` JSON (main.py line 115). -/
structure Campaign where
  id : Nat
  name : String
  status : String
deriving DecidableEq, Repr

/-- One row of a campaign's CSV lead export (main.py lines 78-83). -/
structure LeadRow where
  id : Nat
  status : String
deriving DecidableEq, Repr

/-- Lead task dict pushed onto the lead queue (main.py lines 100-102). -/
structure LeadTask where
  campaign_id : Nat
  lead_id : Nat
deriving DecidableEq, Repr

/-- Message-history entry `{type, time}`; `time` is the parsed timestamp in
epoch seconds (main.py lines 58-61). -/
structure Entry where
  type : String
  time : Int
deriving DecidableEq, Repr

/-- The grace period `timedelta(days=7)` in seconds (main.py line 61). -/
def sevenDays : Int := 7 * 86400

/-- Embedding of `SmartLead.request` (main.py lines 26-36), restricted to the
verb-selection logic: `method == "GET"` issues a GET, every other method
string falls into the `else` branch and issues a DELETE. -/
def request (method url : String) : HttpCall :=
  if method == "GET" then { verb := HttpVerb.get, url := url }
  else { verb := HttpVerb.delete, url := url }

/-- Embedding of `SmartLead._get_campaigns` (main.py lines 109-122): the
parsed `/campaigns` response is filtered to `status == "COMPLETED"`; a failed
fetch or parse (`resp = none`) yields the empty list. -/
def get_campaigns (resp : Option (List Campaign)) : List Campaign :=
  match resp with
  | Option.none => []
  | Option.some xs => xs.filter fun x => x.status == "COMPLETED"

/-- Embedding of `SmartLead._get_lead_ids` (main.py lines 70-88): the parsed
CSV rows are filtered to `status == "COMPLETED"` and the `id` column is
extracted; a failed fetch or parse yields the empty list. -/
def get_lead_ids (resp : Option (List LeadRow)) : List Nat :=
  match resp with
  | Option.none => []
  | Option.some rows => (rows.filter fun r => r.status == "COMPLETED").map fun r => r.id

/-- Embedding of `SmartLead.get_message_history` composed with the caller's
`.get("history", [])` (main.py lines 38-47 and 55-57): a failed fetch returns
`{}`, and a missing `history` key defaults to `[]`, so `resp = none` yields
the empty history. -/
def get_message_history (resp : Option (List Entry)) : List Entry :=
  resp.getD []

/-- Embedding of `SmartLead._delete_leads` (main.py lines 124-128): exactly
one `request("DELETE", ...)` call against the lead's URL. -/
def delete_leads (apiKey : String) (campaign_id lead_id : Nat) : List HttpCall :=
  [request "DELETE"
    ("https://server.smartlead.ai/api/v1/campaigns/" ++ toString campaign_id ++
      "/leads/" ++ toString lead_id ++ "?api_key=" ++ apiKey)]

/-- Observable effects of one iteration of `processLeadQueue` on a gotten
message: the delete calls issued, how many times `task_done` ran, and whether
an exception was raised and caught by the `except` at main.py line 67. -/
structure LeadIterResult where
  deletes : List HttpCall
  taskDone : Nat
  raised : Bool
deriving DecidableEq, Repr

/-- Embedding of one iteration of `SmartLead.processLeadQueue` (main.py lines
52-68) applied to the message gotten from the lead queue.  `hist` is the
fetched message-history payload for the task, `now` is `datetime.now()`.
For the `None` sentinel (main.py lines 53-54) `task_done` runs, there is no
`break`, and the subscription `message["campaign_id"]` then raises TypeError,
caught by the handler.  For a real task: `reply` is `any` entry of type
`"REPLY"`; if not replied, `emails[-1]` raises IndexError on an empty
history (caught, and `task_done` at line 66 is never reached); otherwise the
lead is deleted exactly when `now - last.time` strictly exceeds seven days. -/
def processLeadQueueIter (apiKey : String) (now : Int)
    (hist : Option (List Entry)) (msg : Option LeadTask) : LeadIterResult :=
  match msg with
  | Option.none => { deletes := [], taskDone := 1, raised := true }
  | Option.some task =>
    let emails := get_message_history hist
    let reply := emails.any fun e => e.type == "REPLY"
    if reply then { deletes := [], taskDone := 1, raised := false }
    else
      match emails.getLast? with
      | Option.none => { deletes := [], taskDone := 0, raised := true }
      | Option.some last =>
        if now - last.time > sevenDays then
          { deletes := delete_leads apiKey task.campaign_id task.lead_id,
            taskDone := 1, raised := false }
        else { deletes := [], taskDone := 1, raised := false }

/-- Embedding of the `addToLeadQueue` worker loop (main.py lines 90-107).
`exportOf` is the oracle giving each campaign's parsed leads-export response.
The argument list holds the campaign-queue messages the worker receives, in
order; an exhausted list stands for the loop ending via the stop flag (the
`get(timeout=1)` raising Empty until `stop_event` is observed).  Returns the
ordered items the worker puts on the lead queue and the number of
`task_done` calls on the campaign queue.  On the `None` sentinel the worker
calls `task_done` and breaks, ignoring anything queued behind it; after the
loop, one `None` sentinel is pushed onto the lead queue (line 107). -/
def addToLeadQueue (exportOf : Nat → Option (List LeadRow)) :
    List (Option Campaign) → List (Option LeadTask) × Nat
  | [] => ([Option.none], 0)
  | Option.none :: _ => ([Option.none], 1)
  | Option.some c :: rest =>
    let r := addToLeadQueue exportOf rest
    (((get_lead_ids (exportOf c.id)).map fun lid =>
        Option.some { campaign_id := c.id, lead_id := lid }) ++ r.1,
      r.2 + 1)

/-- The campaign-enqueue loop of `SmartLead.execute` (main.py lines 139-144):
`count` starts at 0, each campaign is put, and the loop breaks right after
the put once `count == 2`, so at most three campaigns are enqueued. -/
def executeEnqueueLoop : Nat → List Campaign → List (Option Campaign)
  | _, [] => []
  | count, c :: rest =>
    Option.some c :: (if count == 2 then [] else executeEnqueueLoop (count + 1) rest)

/-- Observable coordinator-side trace of `SmartLead.execute`: the items it
puts on each queue, whether the worker threads were started, and whether its
teardown raised a RuntimeError. -/
structure ExecTrace where
  campaignPuts : List (Option Campaign)
  leadPuts : List (Option LeadTask)
  threadsStarted : Bool
  raisedRuntimeError : Bool
deriving DecidableEq, Repr

/-- Embedding of `SmartLead.execute` (main.py lines 130-160), coordinator
actions only.  `resp` is the parsed `/campaigns` response.  If the filtered
campaign list is empty, `execute` returns at line 135 before starting either
thread; its `finally` block still puts a `None` sentinel on each queue
(lines 156-157) and then `campaign_thread.join()` at line 158 raises
RuntimeError, because CPython's `Thread.join` raises
`RuntimeError("cannot join thread before it is started")` on a thread whose
`start()` (lines 137-138) never ran.  Otherwise both threads start, the
enqueue loop runs, the completion sentinel is put (line 146), and after the
queue joins the `finally` block puts one more sentinel on each queue and
joins the (started) threads without error. -/
def execute (resp : Option (List Campaign)) : ExecTrace :=
  let campaigns := get_campaigns resp
  if campaigns.isEmpty then
    { campaignPuts := [Option.none], leadPuts := [Option.none],
      threadsStarted := false, raisedRuntimeError := true }
  else
    { campaignPuts := executeEnqueueLoop 0 campaigns ++ [Option.none] ++ [Option.none],
      leadPuts := [Option.none],
      threadsStarted := true, raisedRuntimeError := false }

/-- Claim C1: if a lead's fetched message history contains any entry with
type `"REPLY"`, the evaluator issues no delete call for that task,
regardless of any timestamps in the history. -/
theorem C1_no_delete_when_replied (apiKey : String) (now : Int)
    (hist : Option (List Entry)) (t : LeadTask)
    (h : ∃ e ∈ get_message_history hist, e.type = "REPLY") :
    (processLeadQueueIter apiKey now hist (Option.some t)).deletes = [] := by
  obtain ⟨e, he, hty⟩ := h
  have hrep : ((get_message_history hist).any fun e => e.type == "REPLY") = true := by
    rw [List.any_eq_true]
    exact ⟨e, he, by simp [hty]⟩
  simp [processLeadQueueIter, hrep]

/-- Witness for C1 at a one-entry history whose entry is a REPLY. -/
theorem C1_no_delete_when_replied_witness :
    (∃ e ∈ get_message_history (Option.some [Entry.mk "REPLY" 0]), e.type = "REPLY")
    ∧ (processLeadQueueIter "k" 0 (Option.some [Entry.mk "REPLY" 0])
        (Option.some (LeadTask.mk 1 100))).deletes = [] :=
  ⟨⟨Entry.mk "REPLY" 0, by simp [get_message_history], rfl⟩,
    C1_no_delete_when_replied "k" 0 (Option.some [Entry.mk "REPLY" 0]) (LeadTask.mk 1 100)
      ⟨Entry.mk "REPLY" 0, by simp [get_message_history], rfl⟩⟩

/-- Claim C2, counterexample: a lead whose last (and only) entry is exactly
seven days old satisfies the claim's precondition (no REPLY, last entry 7 or
more days before now), yet the evaluator issues no delete call, because the
source compares with a strict `>` against `timedelta(days=7)`. -/
theorem C2_boundary_no_delete :
    ((get_message_history (Option.some [Entry.mk "OPEN" 0])).any
        fun e => e.type == "REPLY") = false
    ∧ (604800 : Int) - (0 : Int) ≥ sevenDays
    ∧ (processLeadQueueIter "k" 604800 (Option.some [Entry.mk "OPEN" 0])
        (Option.some (LeadTask.mk 1 100))).deletes = [] := by
  refine ⟨by decide, by decide, by decide⟩

/-- Claim C2 as amended: for a task whose non-empty history has no REPLY
entry and whose last entry is STRICTLY more than seven days before now, the
evaluator issues exactly the one delete call `_delete_leads` makes for that
(campaign_id, lead_id), and that call is an HTTP DELETE. -/
theorem C2_delete_when_stale (apiKey : String) (now : Int) (emails : List Entry)
    (t : LeadTask) (last : Entry)
    (hrep : ∀ e ∈ emails, e.type ≠ "REPLY")
    (hlast : emails.getLast? = Option.some last)
    (hold : now - last.time > sevenDays) :
    (processLeadQueueIter apiKey now (Option.some emails) (Option.some t)).deletes
      = delete_leads apiKey t.campaign_id t.lead_id
    ∧ (delete_leads apiKey t.campaign_id t.lead_id).length = 1
    ∧ ∀ call ∈ delete_leads apiKey t.campaign_id t.lead_id,
        call.verb = HttpVerb.delete := by
  have hany : (emails.any fun e => e.type == "REPLY") = false := by
    rw [List.any_eq_false]
    intro e he
    simpa using hrep e he
  refine ⟨?_, rfl, ?_⟩
  · simp [processLeadQueueIter, get_message_history, hany, hlast, hold]
  · intro call hc
    simp [delete_leads, request] at hc
    simp [hc]

/-- Witness for C2_delete_when_stale at a one-entry history one second past
the seven-day boundary. -/
theorem C2_delete_when_stale_witness :
    (∀ e ∈ [Entry.mk "OPEN" 0], e.type ≠ "REPLY")
    ∧ [Entry.mk "OPEN" 0].getLast? = Option.some (Entry.mk "OPEN" 0)
    ∧ (604801 : Int) - (0 : Int) > sevenDays
    ∧ (processLeadQueueIter "k" 604801 (Option.some [Entry.mk "OPEN" 0])
        (Option.some (LeadTask.mk 1 100))).deletes = delete_leads "k" 1 100 :=
  ⟨by decide, by decide, by decide,
    (C2_delete_when_stale "k" 604801 [Entry.mk "OPEN" 0] (LeadTask.mk 1 100)
      (Entry.mk "OPEN" 0) (by decide) (by decide) (by decide)).1⟩

/-- Claim C3, failing input: a task whose evaluation raises (here an empty
history, which raises IndexError at `emails[-1]`) is caught by the handler
at main.py line 67 and the loop continues, but `task_done` at line 66 is
skipped, so the lead queue's unfinished count is NOT decremented for the
offending task (contrary to the claim that task_done is called). -/
theorem C3_exception_skips_task_done :
    (processLeadQueueIter "k" 0 (Option.some []) (Option.some (LeadTask.mk 1 100))).raised
      = true
    ∧ (processLeadQueueIter "k" 0 (Option.some [])
        (Option.some (LeadTask.mk 1 100))).taskDone = 0 := by
  decide

/-- Claim C5: a task whose fetched history is empty (also when the fetch
failed and the empty default was used) raises at `emails[-1]`; the exception
is absorbed by the catch-and-continue and no delete call is issued. -/
theorem C5_empty_history_raises (apiKey : String) (now : Int)
    (hist : Option (List Entry)) (t : LeadTask)
    (h : get_message_history hist = []) :
    (processLeadQueueIter apiKey now hist (Option.some t)).raised = true
    ∧ (processLeadQueueIter apiKey now hist (Option.some t)).deletes = [] := by
  constructor <;> simp [processLeadQueueIter, h]

/-- Witness for C5 at a failed history fetch (empty default). -/
theorem C5_empty_history_raises_witness :
    get_message_history (Option.none : Option (List Entry)) = []
    ∧ (processLeadQueueIter "k" 0 Option.none (Option.some (LeadTask.mk 1 100))).raised
        = true :=
  ⟨rfl, (C5_empty_history_raises "k" 0 Option.none (LeadTask.mk 1 100) rfl).1⟩

/-- Claim C10: every method string other than exactly "GET" falls into the
`else` branch of `request` and issues an HTTP DELETE to the given URL. -/
theorem C10_non_get_is_delete (method url : String) (h : method ≠ "GET") :
    request method url = { verb := HttpVerb.delete, url := url } := by
  have hb : (method == "GET") = false := by
    simp [h]
  simp [request, hb]

/-- Witness for C10 at method "POST". -/
theorem C10_non_get_is_delete_witness :
    ("POST" : String) ≠ "GET"
    ∧ request "POST" "u" = { verb := HttpVerb.delete, url := "u" } :=
  ⟨by decide, C10_non_get_is_delete "POST" "u" (by decide)⟩

/-- The enqueue loop started with `count = 0` puts exactly the first three
campaigns, in order. -/
theorem executeEnqueueLoop_zero (cs : List Campaign) :
    executeEnqueueLoop 0 cs = (cs.take 3).map Option.some := by
  match cs with
  | [] => rfl
  | [a] => rfl
  | [a, b] => rfl
  | a :: b :: c :: rest => rfl

/-- Claim C4, failing input: the campaign fetch returns an empty list.  The
coordinator returns before starting either worker thread, yet its `finally`
block still enqueues a sentinel on each queue (so queue activity is not
zero) and then `campaign_thread.join()` raises RuntimeError on the
never-started thread (so the teardown errors). -/
theorem C4_empty_campaigns_teardown :
    (execute (Option.some [])).raisedRuntimeError = true
    ∧ (execute (Option.some [])).threadsStarted = false
    ∧ (execute (Option.some [])).campaignPuts = [Option.none]
    ∧ (execute (Option.some [])).leadPuts = [Option.none] := by
  decide

/-- In a list of some-wrapped values followed by sentinels, the count of
present values is the number of wrapped values. -/
theorem countP_isSome_map_replicate {α : Type} (tasks : List α) (k : Nat) :
    ((tasks.map Option.some ++ List.replicate k (Option.none : Option α)).countP
      fun x => x.isSome) = tasks.length := by
  induction tasks with
  | nil =>
    induction k with
    | zero => rfl
    | succ n ih => simp [List.replicate_succ, List.countP_cons]
  | cons a l ih => simp [List.countP_cons, ih]

/-- Claim C6: every run enqueues at most three campaigns onto the campaign
queue, and the queue traffic is those campaigns followed only by sentinels,
so the completion sentinel comes after the last campaign. -/
theorem C6_at_most_three_campaigns (resp : Option (List Campaign)) :
    ((execute resp).campaignPuts.countP fun x => x.isSome) ≤ 3
    ∧ ∃ cs : List Campaign, ∃ k : Nat, cs.length ≤ 3 ∧ 1 ≤ k
      ∧ (execute resp).campaignPuts = cs.map Option.some ++ List.replicate k Option.none := by
  by_cases h : (get_campaigns resp).isEmpty
  · refine ⟨by simp [execute, h], [], 1, by simp, le_refl 1, by simp [execute, h]⟩
  · have hshape : (execute resp).campaignPuts
        = ((get_campaigns resp).take 3).map Option.some
          ++ List.replicate 2 Option.none := by
      simp [execute, h, executeEnqueueLoop_zero]
    refine ⟨?_, (get_campaigns resp).take 3, 2, List.length_take_le 3 _, by omega, hshape⟩
    rw [hshape, countP_isSome_map_replicate]
    exact List.length_take_le 3 _

/-- Claim C7: campaigns whose status is not "COMPLETED" never enter the
campaign queue (hence are never expanded or evaluated); every lead id that
`_get_lead_ids` produces comes from an export row with status "COMPLETED";
and every lead task the expander pushes carries a lead id produced by
`_get_lead_ids` for its campaign — so a non-completed export row never
yields a lead task. -/
theorem C7_status_filters :
    (∀ (resp : Option (List Campaign)) (c : Campaign), c.status ≠ "COMPLETED" →
      Option.some c ∉ (execute resp).campaignPuts)
    ∧ (∀ (resp : Option (List LeadRow)) (i : Nat), i ∈ get_lead_ids resp →
      ∃ row ∈ resp.getD [], row.status = "COMPLETED" ∧ row.id = i)
    ∧ (∀ (exportOf : Nat → Option (List LeadRow)) (items : List (Option Campaign))
        (t : LeadTask), Option.some t ∈ (addToLeadQueue exportOf items).1 →
      t.lead_id ∈ get_lead_ids (exportOf t.campaign_id)) := by
  refine ⟨?_, ?_, ?_⟩
  · intro resp c hne hmem
    by_cases h : (get_campaigns resp).isEmpty
    · simp [execute, h] at hmem
    · rw [show (execute resp).campaignPuts
          = ((get_campaigns resp).take 3).map Option.some
            ++ [Option.none] ++ [Option.none] by simp [execute, h, executeEnqueueLoop_zero]]
        at hmem
      simp only [List.append_assoc, List.mem_append, List.mem_map,
        List.mem_singleton] at hmem
      rcases hmem with ⟨a, ha, heq⟩ | hbad | hbad
      · rw [Option.some_inj.mp heq] at ha
        have hc : c ∈ get_campaigns resp := List.mem_of_mem_take ha
        cases resp with
        | none => simp [get_campaigns] at hc
        | some xs =>
          simp only [get_campaigns] at hc
          have h2 := (List.mem_filter.mp hc).2
          simp at h2
          exact hne h2
      · exact Option.noConfusion hbad
      · exact Option.noConfusion hbad
  · intro resp i hi
    match resp with
    | Option.none => simp [get_lead_ids] at hi
    | Option.some rows =>
      simp only [get_lead_ids, List.mem_map] at hi
      obtain ⟨row, hrow, hid⟩ := hi
      have h1 := (List.mem_filter.mp hrow).1
      have h2 := (List.mem_filter.mp hrow).2
      simp at h2
      exact ⟨row, by simpa using h1, h2, hid⟩
  · intro exportOf items t hmem
    induction items with
    | nil => simp [addToLeadQueue] at hmem
    | cons x rest ih =>
      match x with
      | Option.none => simp [addToLeadQueue] at hmem
      | Option.some c =>
        simp only [addToLeadQueue, List.mem_append, List.mem_map] at hmem
        rcases hmem with ⟨lid, hlid, heq⟩ | hrest
        · have ht : t = LeadTask.mk c.id lid := by
            exact (Option.some.injEq _ _).mp heq.symm
          subst ht
          exact hlid
        · exact ih hrest

/-- Witness for C7 at a DRAFT campaign (never enqueued) and a COMPLETED
export row (its id traced back to a completed row). -/
theorem C7_status_filters_witness :
    Option.some (Campaign.mk 1 "x" "DRAFT")
        ∉ (execute (Option.some [Campaign.mk 1 "x" "DRAFT"])).campaignPuts
    ∧ ∃ row ∈ (Option.some [LeadRow.mk 100 "COMPLETED"]).getD ([] : List LeadRow),
        row.status = "COMPLETED" ∧ row.id = 100 :=
  ⟨C7_status_filters.1 (Option.some [Campaign.mk 1 "x" "DRAFT"])
      (Campaign.mk 1 "x" "DRAFT") (by decide),
    C7_status_filters.2.1 (Option.some [LeadRow.mk 100 "COMPLETED"]) 100 (by decide)⟩

/-- Whatever campaign-queue messages the expander sees, what it pushes onto
the lead queue is a list of real tasks followed by exactly one sentinel. -/
theorem addToLeadQueue_shape (exportOf : Nat → Option (List LeadRow))
    (items : List (Option Campaign)) :
    ∃ tasks : List LeadTask,
      (addToLeadQueue exportOf items).1 = tasks.map Option.some ++ [Option.none] := by
  induction items with
  | nil => exact ⟨[], rfl⟩
  | cons x rest ih =>
    match x with
    | Option.none => exact ⟨[], rfl⟩
    | Option.some c =>
      obtain ⟨tasks, ht⟩ := ih
      refine ⟨(get_lead_ids (exportOf c.id)).map (fun lid => LeadTask.mk c.id lid)
        ++ tasks, ?_⟩
      simp [addToLeadQueue, ht, Function.comp]

/-- Claim C9: on the shutdown sentinel the expander marks it processed (one
campaign task_done), stops pulling (messages behind it are ignored) and
exits; and on every loop exit — sentinel or stop flag — it pushes exactly
one sentinel onto the lead queue, as the last item it pushes. -/
theorem C9_expander_sentinel (exportOf : Nat → Option (List LeadRow))
    (rest : List (Option Campaign)) (items : List (Option Campaign)) :
    addToLeadQueue exportOf (Option.none :: rest) = ([Option.none], 1)
    ∧ ((addToLeadQueue exportOf items).1.countP fun x => x.isNone) = 1
    ∧ (addToLeadQueue exportOf items).1.getLast? = Option.some Option.none := by
  obtain ⟨tasks, ht⟩ := addToLeadQueue_shape exportOf items
  refine ⟨rfl, ?_, ?_⟩
  · rw [ht]
    simp [List.countP_append, List.countP_map, Function.comp]
  · rw [ht, List.getLast?_concat]

end SmartLead
